import Mathlib

/-
Verification of the bivalve logging facade (src/bivalve.go): a shallow
embedding of the level-gated emitters, the Configure operation, the
statusWriter response interceptor, and the access-log middleware
(webLoggingHandler.ServeHTTP), with theorems about their behavior.
-/

namespace Bivalve

/-- Newline character, as appended by the Go log package when a message
does not already end in one. -/
def newline : String := "\x0a"

/-- Level constants from the source: debugLevel = 4, infoLevel = 2,
errorLevel = 1. -/
def debugLevel : Int := 4

def infoLevel : Int := 2

def errorLevel : Int := 1

/-- ApacheFormatPattern from the source. -/
def ApacheFormatPattern : String := "%s - - [%s] \"%s %d %d\" %f\x0a"

/-- ErrorColor from the source: red ANSI wrapper. -/
def ErrorColor : String := "\x1b[1;31m%s\x1b[0m"

/-- DebugColor from the source: cyan ANSI wrapper. -/
def DebugColor : String := "\x1b[0;36m%s\x1b[0m"

/-- An argument consumed by a %-verb of Go fmt.Sprintf as used in this
program. The program only uses %s, %d and %f; the %f argument (a float64
of elapsed seconds) is carried as its rendered text, since floating-point
rendering is outside the shallow embedding and no claim depends on its
digits. -/
inductive FmtArg where
  | s (v : String)
  | d (v : Int)
  | f (rendered : String)
deriving DecidableEq

/-- Character-level interpreter of the %s / %d / %f verbs of
fmt.Sprintf, sufficient for the format strings this program passes
(ApacheFormatPattern, DebugColor, ErrorColor). Verbs and arguments always
match in this program, so mismatch diagnostics are not modelled. -/
def sprintfAux : List Char → List FmtArg → String
  | [], _ => ""
  | '%' :: 's' :: rest, FmtArg.s v :: args => v ++ sprintfAux rest args
  | '%' :: 'd' :: rest, FmtArg.d v :: args => toString v ++ sprintfAux rest args
  | '%' :: 'f' :: rest, FmtArg.f v :: args => v ++ sprintfAux rest args
  | c :: rest, args => String.singleton c ++ sprintfAux rest args

/-- fmt.Sprintf over a format string. -/
def sprintf (fmtStr : String) (args : List FmtArg) : String :=
  sprintfAux fmtStr.data args

/-- The active sink writer chosen by Configure. `nilFile` is the nil
*os.File returned by a failed os.OpenFile, which the source still assigns
to the writer variable. -/
inductive Writer where
  | stderr
  | stdout
  | file (name : String)
  | nilFile
deriving DecidableEq

/-- LogConfig from the source. -/
structure LogConfig where
  Output : String
  Level : String
  Filename : String
  DisplayMinimal : Bool
  TerminalOutput : Bool
deriving DecidableEq

/-- The package-level mutable state set by Configure: the writer and the
flags of the valvelog Logger (displayMinimal true means logflags = 0,
false means Ldate|Ltime|Lmicroseconds|LUTC|Lshortfile), plus the level
and terminalOutput globals. -/
structure LoggerState where
  writer : Writer
  level : Int
  terminalOutput : Bool
  displayMinimal : Bool
deriving DecidableEq

/-- Configure from the source. `openOk` reports whether os.OpenFile
succeeded when Output = "file"; on failure the source logs the error via
log.Println and still assigns the nil file handle to the writer. The
previous state is ignored: every global is overwritten unconditionally. -/
def Configure (_st : LoggerState) (conf : LogConfig) (openOk : Bool) : LoggerState :=
  let writer : Writer :=
    if conf.Output = "file" then
      (if openOk then Writer.file conf.Filename else Writer.nilFile)
    else if conf.Output = "stdout" then Writer.stdout
    else Writer.stderr
  let lvl : Int :=
    if conf.Level = "debug" then debugLevel
    else if conf.Level = "error" then errorLevel
    else infoLevel
  { writer := writer, level := lvl, terminalOutput := conf.TerminalOutput,
    displayMinimal := conf.DisplayMinimal }

/-- Whether Configure logs an open error through the underlying system
logger (the log.Println call in the "file" case). -/
def configureLogsOpenError (conf : LogConfig) (openOk : Bool) : Bool :=
  conf.Output == "file" && !openOk

/-- Info from the source: the message handed to valvelog.Output when the
level gate passes, none when suppressed. -/
def Info (st : LoggerState) (s : String) : Option String :=
  if st.level ≥ infoLevel then some s else none

/-- Infof from the source. -/
def Infof (st : LoggerState) (s : String) (args : List FmtArg) : Option String :=
  if st.level ≥ infoLevel then some (sprintf s args) else none

/-- Debug from the source: gated at debugLevel, cyan-wrapped when
terminalOutput is set. -/
def Debug (st : LoggerState) (s : String) : Option String :=
  if st.level ≥ debugLevel then
    some (if st.terminalOutput then sprintf DebugColor [FmtArg.s s] else s)
  else none

/-- Debugf from the source. -/
def Debugf (st : LoggerState) (s : String) (args : List FmtArg) : Option String :=
  if st.level ≥ debugLevel then
    some (if st.terminalOutput then sprintf DebugColor [FmtArg.s (sprintf s args)]
          else sprintf s args)
  else none

/-- Error from the source: no level gate, red-wrapped when terminalOutput
is set. -/
def Error (st : LoggerState) (s : String) : Option String :=
  some (if st.terminalOutput then sprintf ErrorColor [FmtArg.s s] else s)

/-- Errorf from the source. -/
def Errorf (st : LoggerState) (s : String) (args : List FmtArg) : Option String :=
  some (if st.terminalOutput then sprintf ErrorColor [FmtArg.s (sprintf s args)]
        else sprintf s args)

/-- Whether the last character of s is a newline: the check
len(s) == 0 || s[len(s)-1] != the newline byte done by Go log.Output
before it appends one. -/
def endsInNewline (s : String) : Bool :=
  s.data.getLast? == some '\x0a'

/-- Go log.Logger.Output on the valvelog logger: prepends the header
(date, time, file:line — carried abstractly as `hdr`) unless the logger
was built with logflags = 0 (displayMinimal), and appends a newline only
when the message does not already end with one. -/
def logOutput (displayMinimal : Bool) (hdr : String) (s : String) : String :=
  (if displayMinimal then "" else hdr) ++ s ++
    (if endsInNewline s then "" else newline)

/-- The bytes actually written to the sink for one emitter call: the
emitter's message (if not suppressed) passed through valvelog.Output. -/
def writtenLine (st : LoggerState) (hdr : String) (emitted : Option String) :
    Option String :=
  emitted.map (logOutput st.displayMinimal hdr)

/-- One interaction of the wrapped handler with the statusWriter: a call
to WriteHeader, or a call to Write of n bytes (n is the byte count of the
slice, which the underlying writer reports back absent errors). -/
inductive WEvent where
  | writeHeader (status : Int)
  | write (n : Nat)
deriving DecidableEq

/-- statusWriter from the source. -/
structure StatusWriter where
  status : Int
  length : Nat
deriving DecidableEq

/-- The zero statusWriter built by ServeHTTP: status and length both 0. -/
def initSW : StatusWriter := { status := 0, length := 0 }

/-- One step of the statusWriter: WriteHeader stores the given status
(overwriting any previous one); Write first promotes a zero status to
200, then adds the written byte count to the length. -/
def stepSW (sw : StatusWriter) (e : WEvent) : StatusWriter :=
  match e with
  | WEvent.writeHeader status => { sw with status := status }
  | WEvent.write n =>
    let sw1 := if sw.status = 0 then { sw with status := 200 } else sw
    { sw1 with length := sw1.length + n }

/-- The statusWriter after the wrapped handler ran, producing the given
event trace. -/
def runHandler (trace : List WEvent) : StatusWriter :=
  trace.foldl stepSW initSW

/-- True of WriteHeader events; used to say a trace never invoked the
status-set operation. -/
def isWriteHeader : WEvent → Bool
  | WEvent.writeHeader _ => true
  | WEvent.write _ => false

/-- The statuses passed to WriteHeader along a trace, in order. -/
def statusesOf (trace : List WEvent) : List Int :=
  trace.filterMap (fun e =>
    match e with
    | WEvent.writeHeader s => some s
    | WEvent.write _ => none)

/-- A broken-down wall-clock time, enough to evaluate the Go layout
"02/Jan/2006 03:04:05". -/
structure GoTime where
  year : Nat
  month : Nat
  day : Nat
  hour : Nat
  minute : Nat
  second : Nat
deriving DecidableEq

/-- The Go zero value time.Time\x7b\x7d: January 1, year 1, 00:00:00 UTC. -/
def zeroTime : GoTime := { year := 1, month := 1, day := 1, hour := 0, minute := 0, second := 0 }

/-- Month names as produced by the "Jan" layout element. -/
def monthName : Nat → String
  | 1 => "Jan"
  | 2 => "Feb"
  | 3 => "Mar"
  | 4 => "Apr"
  | 5 => "May"
  | 6 => "Jun"
  | 7 => "Jul"
  | 8 => "Aug"
  | 9 => "Sep"
  | 10 => "Oct"
  | 11 => "Nov"
  | 12 => "Dec"
  | _ => "???"

/-- Two-digit zero padding ("02", "03", "04", "05" layout elements). -/
def pad2 (n : Nat) : String :=
  if n < 10 then "0" ++ toString n else toString n

/-- Four-digit zero padding (the "2006" year element). -/
def pad4 (n : Nat) : String :=
  if n < 10 then "000" ++ toString n
  else if n < 100 then "00" ++ toString n
  else if n < 1000 then "0" ++ toString n
  else toString n

/-- time.Time.Format with the layout "02/Jan/2006 03:04:05" used by
ServeHTTP: zero-padded day, month name, four-digit year, zero-padded
12-hour clock hour, minute, second. -/
def goFormat (t : GoTime) : String :=
  pad2 t.day ++ "/" ++ monthName t.month ++ "/" ++ pad4 t.year ++ " " ++
    pad2 (if t.hour % 12 = 0 then 12 else t.hour % 12) ++ ":" ++
    pad2 t.minute ++ ":" ++ pad2 t.second

/-- The request fields ServeHTTP reads. -/
structure Request where
  RemoteAddr : String
  Method : String
  RequestURI : String
  Proto : String
deriving DecidableEq

/-- The ApacheLogRecord assembled by ServeHTTP. Its time field is the
zero value time.Time\x7b\x7d, as in the source; elapsed time is handled
separately by the caller. -/
structure ApacheLogRecord where
  ip : String
  time : GoTime
  method : String
  uri : String
  protocol : String
  status : Int
  responseBytes : Int
deriving DecidableEq

/-- The record ServeHTTP builds from the request and the statusWriter
left by the wrapped handler. -/
def mkRecord (r : Request) (trace : List WEvent) : ApacheLogRecord :=
  let sw := runHandler trace
  { ip := r.RemoteAddr, time := zeroTime, method := r.Method,
    uri := r.RequestURI, protocol := r.Proto, status := sw.status,
    responseBytes := (sw.length : Int) }

/-- webLoggingHandler.ServeHTTP from the source: runs the wrapped handler
(its interaction with the statusWriter given as `trace`), builds the
record, formats the zero-value timestamp and the request line, and emits
one line through Infof with ApacheFormatPattern. `startTime` and
`endingTime` are the two clock readings; `renderSeconds` is the %f
rendering of the elapsed duration in seconds (float64 formatting,
abstracted as text). The result is the message emitted through the
info-level emitter, or none when the level gate suppresses it. -/
def serveHTTP (st : LoggerState) (r : Request) (trace : List WEvent)
    (startTime endingTime : Nat) (renderSeconds : Nat → String) : Option String :=
  let record := mkRecord r trace
  let timeFormatted := goFormat record.time
  let requestLine := record.method ++ " " ++ record.uri ++ " " ++ record.protocol
  Infof st ApacheFormatPattern
    [FmtArg.s record.ip, FmtArg.s timeFormatted, FmtArg.s requestLine,
     FmtArg.d record.status, FmtArg.d record.responseBytes,
     FmtArg.f (renderSeconds (endingTime - startTime))]

/-- If the wrapped handler never calls WriteHeader and the statusWriter
already holds a nonzero status, the remaining events leave it unchanged. -/
theorem status_preserved (tr : List WEvent) (st : StatusWriter)
    (hno : ∀ e ∈ tr, isWriteHeader e = false) (hs : st.status ≠ 0) :
    (List.foldl stepSW st tr).status = st.status := by
  induction tr generalizing st with
  | nil => rfl
  | cons e rest ih =>
    cases e with
    | writeHeader s =>
      exact absurd (hno _ (List.mem_cons_self _ _)) (by simp [isWriteHeader])
    | write n =>
      have hstep : (stepSW st (WEvent.write n)).status = st.status := by
        simp [stepSW, hs]
      have hstep2 : (stepSW st (WEvent.write n)).status ≠ 0 := by
        rw [hstep]; exact hs
      calc (List.foldl stepSW st (WEvent.write n :: rest)).status
          = (List.foldl stepSW (stepSW st (WEvent.write n)) rest).status := rfl
        _ = (stepSW st (WEvent.write n)).status :=
            ih _ (fun e he => hno e (List.mem_cons_of_mem _ he)) hstep2
        _ = st.status := hstep

/-- The status held after a trace is the last WriteHeader argument, when
that argument is nonzero, from any starting state. -/
theorem foldl_last_status :
    ∀ (tr : List WEvent) (st : StatusWriter) (s : Int),
      (statusesOf tr).getLast? = some s → s ≠ 0 →
      (List.foldl stepSW st tr).status = s := by
  intro tr
  induction tr using List.reverseRecOn with
  | nil => intro st s h hs; simp [statusesOf] at h
  | append_singleton rest e ih =>
    intro st s hlast hs
    cases e with
    | writeHeader t =>
      have hsplit : statusesOf (rest ++ [WEvent.writeHeader t])
          = statusesOf rest ++ [t] := by
        simp [statusesOf]
      rw [hsplit, List.getLast?_concat] at hlast
      have ht : t = s := Option.some.inj hlast
      rw [List.foldl_append]
      simp [stepSW, ht]
    | write n =>
      have hsplit : statusesOf (rest ++ [WEvent.write n]) = statusesOf rest := by
        simp [statusesOf]
      rw [hsplit] at hlast
      have hprev := ih st s hlast hs
      rw [List.foldl_append]
      simp [stepSW, hprev, hs]

/-- C1: with the threshold T one of the configured values error=1,
info=2, debug=4, Debug and Debugf emit iff T >= 4, Info and Infof emit
iff T >= 2, and Error and Errorf emit for every T. -/
theorem c1_level_gate (T : Int) (w : Writer) (tOut dm : Bool)
    (s fs : String) (args : List FmtArg)
    (hT : T = errorLevel ∨ T = infoLevel ∨ T = debugLevel) :
    ((Debug ⟨w, T, tOut, dm⟩ s).isSome = true ↔ debugLevel ≤ T) ∧
    ((Debugf ⟨w, T, tOut, dm⟩ fs args).isSome = true ↔ debugLevel ≤ T) ∧
    ((Info ⟨w, T, tOut, dm⟩ s).isSome = true ↔ infoLevel ≤ T) ∧
    ((Infof ⟨w, T, tOut, dm⟩ fs args).isSome = true ↔ infoLevel ≤ T) ∧
    (Error ⟨w, T, tOut, dm⟩ s).isSome = true ∧
    (Errorf ⟨w, T, tOut, dm⟩ fs args).isSome = true := by
  rcases hT with h | h | h <;> subst h <;>
    simp [Debug, Debugf, Info, Infof, Error, Errorf,
      debugLevel, infoLevel, errorLevel]

/-- Witness for c1_level_gate at the default threshold info=2. -/
theorem c1_level_gate_witness :
    ((Debug ⟨Writer.stderr, 2, false, false⟩ "m").isSome = true ↔ debugLevel ≤ (2 : Int)) ∧
    ((Debugf ⟨Writer.stderr, 2, false, false⟩ "m" []).isSome = true ↔ debugLevel ≤ (2 : Int)) ∧
    ((Info ⟨Writer.stderr, 2, false, false⟩ "m").isSome = true ↔ infoLevel ≤ (2 : Int)) ∧
    ((Infof ⟨Writer.stderr, 2, false, false⟩ "m" []).isSome = true ↔ infoLevel ≤ (2 : Int)) ∧
    (Error ⟨Writer.stderr, 2, false, false⟩ "m").isSome = true ∧
    (Errorf ⟨Writer.stderr, 2, false, false⟩ "m" []).isSome = true :=
  c1_level_gate 2 Writer.stderr false false "m" "m" []
    (Or.inr (Or.inl (by decide)))

/-- C2: a handler trace that never calls WriteHeader and writes at least
one body byte leaves the interceptor at status 200; a trace that calls
WriteHeader with a valid HTTP status before any writes leaves it at that
explicitly set status. -/
theorem c2_interceptor_status (tr1 tr2 : List WEvent) (s : Int) :
    ((∀ e ∈ tr1, isWriteHeader e = false) →
      (∃ n, WEvent.write n ∈ tr1 ∧ 0 < n) →
      (runHandler tr1).status = 200) ∧
    ((∀ e ∈ tr2, isWriteHeader e = false) → 100 ≤ s → s ≤ 999 →
      (runHandler (WEvent.writeHeader s :: tr2)).status = s) := by
  constructor
  · intro hno hwrite
    obtain ⟨n, hn, _⟩ := hwrite
    match tr1, hn with
    | e :: rest, _ =>
      cases e with
      | writeHeader t =>
        exact absurd (hno _ (List.mem_cons_self _ _)) (by simp [isWriteHeader])
      | write m =>
        have hstep : (stepSW initSW (WEvent.write m)).status = 200 := by
          simp [stepSW, initSW]
        have : (runHandler (WEvent.write m :: rest)).status
            = (stepSW initSW (WEvent.write m)).status := by
          unfold runHandler
          rw [List.foldl_cons]
          exact status_preserved rest _
            (fun e he => hno e (List.mem_cons_of_mem _ he))
            (by rw [hstep]; decide)
        rw [this, hstep]
  · intro hno h100 _
    have hs : s ≠ 0 := by omega
    unfold runHandler
    rw [List.foldl_cons]
    have hstep : (stepSW initSW (WEvent.writeHeader s)).status = s := by
      simp [stepSW]
    rw [status_preserved tr2 _ hno (by rw [hstep]; exact hs), hstep]

/-- Witness for c2_interceptor_status: a 5-byte write with no WriteHeader
gives 200, and WriteHeader 404 followed by a write gives 404. -/
theorem c2_interceptor_status_witness :
    (runHandler [WEvent.write 5]).status = 200 ∧
    (runHandler [WEvent.writeHeader 404, WEvent.write 3]).status = 404 := by
  have h := c2_interceptor_status [WEvent.write 5] [WEvent.write 3] 404
  exact ⟨h.1 (by decide) ⟨5, by decide⟩, h.2 (by decide) (by decide) (by decide)⟩

/-- C3 counterexample: after WriteHeader 301 then WriteHeader 404, the
interceptor and the access-log record hold 404 — the later status, not
the first one (301). -/
theorem c3_counterexample :
    statusesOf [WEvent.writeHeader 301, WEvent.writeHeader 404] = [301, 404] ∧
    (runHandler [WEvent.writeHeader 301, WEvent.writeHeader 404]).status = 404 ∧
    (mkRecord ⟨"1.2.3.4:56", "GET", "/foo", "HTTP/1.1"⟩
      [WEvent.writeHeader 301, WEvent.writeHeader 404]).status = 404 ∧
    (404 : Int) ≠ 301 := by
  refine ⟨by decide, by decide, by decide, by decide⟩

/-- C3 amended: when WriteHeader is invoked more than once, the status
captured by the interceptor and reported in the access-log record is the
LAST (nonzero) status code written, each call overwriting the previous
one. -/
theorem c3_last_status_wins (tr : List WEvent) (s : Int) (r : Request)
    (hlast : (statusesOf tr).getLast? = some s) (hs : s ≠ 0) :
    (runHandler tr).status = s ∧ (mkRecord r tr).status = s := by
  have h := foldl_last_status tr initSW s hlast hs
  exact ⟨h, h⟩

/-- Witness for c3_last_status_wins on the two-WriteHeader trace. -/
theorem c3_last_status_wins_witness :
    (runHandler [WEvent.writeHeader 301, WEvent.writeHeader 404]).status = 404 ∧
    (mkRecord ⟨"1.2.3.4:56", "GET", "/foo", "HTTP/1.1"⟩
      [WEvent.writeHeader 301, WEvent.writeHeader 404]).status = 404 :=
  c3_last_status_wins [WEvent.writeHeader 301, WEvent.writeHeader 404] 404
    ⟨"1.2.3.4:56", "GET", "/foo", "HTTP/1.1"⟩ (by decide) (by decide)

/-- C4 counterexample: with the sink previously configured to stdout, a
Configure call with output "file" whose open fails does log the error,
but leaves the writer as the nil file handle of the failed open — not the
previously configured stdout sink — so subsequent emissions do not go to
the previous sink. -/
theorem c4_counterexample :
    configureLogsOpenError ⟨"file", "info", "bivalve.log", false, false⟩ false = true ∧
    (Configure ⟨Writer.stdout, 2, false, false⟩
      ⟨"file", "info", "bivalve.log", false, false⟩ false).writer = Writer.nilFile ∧
    Writer.nilFile ≠ Writer.stdout := by
  refine ⟨by decide, by decide, by decide⟩

/-- C4 amended: when Configure is called with output "file" and the open
fails, the error is logged through the underlying system logger and the
call does not abort, but the active sink does not continue as previously
configured: the writer is unconditionally replaced by the nil handle
returned by the failed open. -/
theorem c4_failed_open (st : LoggerState) (conf : LogConfig)
    (hfile : conf.Output = "file") :
    configureLogsOpenError conf false = true ∧
    (Configure st conf false).writer = Writer.nilFile := by
  constructor
  · simp [configureLogsOpenError, hfile]
  · simp [Configure, hfile]

/-- Witness for c4_failed_open at a concrete state and configuration. -/
theorem c4_failed_open_witness :
    configureLogsOpenError ⟨"file", "debug", "x.log", true, true⟩ false = true ∧
    (Configure ⟨Writer.stderr, 2, false, false⟩
      ⟨"file", "debug", "x.log", true, true⟩ false).writer = Writer.nilFile :=
  c4_failed_open ⟨Writer.stderr, 2, false, false⟩
    ⟨"file", "debug", "x.log", true, true⟩ (by decide)

/-- C5: for every completed request, ServeHTTP emits exactly one line,
built from ApacheFormatPattern with substitutions client address,
formatted timestamp, combined "METHOD URI PROTOCOL" string, status code,
byte count and elapsed seconds, through the info-level emitter: at a
threshold at or above info the line is emitted, below info it is
suppressed. -/
theorem c5_access_log_line (stA stB : LoggerState) (r : Request)
    (tr : List WEvent) (t1 t2 : Nat) (rs : Nat → String)
    (hA : infoLevel ≤ stA.level) (hB : stB.level < infoLevel) :
    serveHTTP stA r tr t1 t2 rs =
      some (sprintf ApacheFormatPattern
        [FmtArg.s r.RemoteAddr, FmtArg.s (goFormat zeroTime),
         FmtArg.s (r.Method ++ " " ++ r.RequestURI ++ " " ++ r.Proto),
         FmtArg.d (runHandler tr).status, FmtArg.d ((runHandler tr).length : Int),
         FmtArg.f (rs (t2 - t1))]) ∧
    serveHTTP stB r tr t1 t2 rs = none := by
  constructor
  · simp [serveHTTP, mkRecord, Infof, hA]
  · simp [serveHTTP, mkRecord, Infof, not_le.mpr hB]

/-- Witness for c5_access_log_line: threshold info=2 emits the line,
threshold error=1 suppresses it. -/
theorem c5_access_log_line_witness :
    serveHTTP ⟨Writer.stdout, 2, false, false⟩ ⟨"1.2.3.4:56", "GET", "/foo", "HTTP/1.1"⟩
        [WEvent.write 5] 10 25 (fun _ => "0.000015") =
      some (sprintf ApacheFormatPattern
        [FmtArg.s "1.2.3.4:56", FmtArg.s (goFormat zeroTime),
         FmtArg.s ("GET" ++ " " ++ "/foo" ++ " " ++ "HTTP/1.1"),
         FmtArg.d (runHandler [WEvent.write 5]).status,
         FmtArg.d ((runHandler [WEvent.write 5]).length : Int),
         FmtArg.f "0.000015"]) ∧
    serveHTTP ⟨Writer.stdout, 1, false, false⟩ ⟨"1.2.3.4:56", "GET", "/foo", "HTTP/1.1"⟩
        [WEvent.write 5] 10 25 (fun _ => "0.000015") = none :=
  c5_access_log_line ⟨Writer.stdout, 2, false, false⟩ ⟨Writer.stdout, 1, false, false⟩
    ⟨"1.2.3.4:56", "GET", "/foo", "HTTP/1.1"⟩ [WEvent.write 5] 10 25
    (fun _ => "0.000015") (by decide) (by decide)

/-- C6: the timestamp substituted into the access-log line is the
formatting of the zero-value time ("01/Jan/0001 12:00:00"), not the
request start or end time: the record's time field is the zero value, the
line substitutes goFormat zeroTime, and two runs at different clock
readings with the same rendered elapsed time emit the identical line. -/
theorem c6_zero_timestamp (st : LoggerState) (r : Request) (tr : List WEvent)
    (rs : Nat → String) (t1 t2 u1 u2 : Nat)
    (helapsed : rs (t2 - t1) = rs (u2 - u1)) :
    (mkRecord r tr).time = zeroTime ∧
    goFormat zeroTime = "01/Jan/0001 12:00:00" ∧
    serveHTTP st r tr t1 t2 rs =
      Infof st ApacheFormatPattern
        [FmtArg.s r.RemoteAddr, FmtArg.s (goFormat zeroTime),
         FmtArg.s (r.Method ++ " " ++ r.RequestURI ++ " " ++ r.Proto),
         FmtArg.d (runHandler tr).status, FmtArg.d ((runHandler tr).length : Int),
         FmtArg.f (rs (t2 - t1))] ∧
    serveHTTP st r tr t1 t2 rs = serveHTTP st r tr u1 u2 rs := by
  refine ⟨rfl, by decide, rfl, ?_⟩
  simp [serveHTTP, helapsed]

/-- Witness for c6_zero_timestamp at two different clock intervals with
the same elapsed rendering. -/
theorem c6_zero_timestamp_witness :
    (mkRecord ⟨"1.2.3.4:56", "GET", "/foo", "HTTP/1.1"⟩ []).time = zeroTime ∧
    goFormat zeroTime = "01/Jan/0001 12:00:00" ∧
    serveHTTP ⟨Writer.stdout, 2, false, false⟩ ⟨"1.2.3.4:56", "GET", "/foo", "HTTP/1.1"⟩
        [] 10 25 (fun _ => "0.000015") =
      Infof ⟨Writer.stdout, 2, false, false⟩ ApacheFormatPattern
        [FmtArg.s "1.2.3.4:56", FmtArg.s (goFormat zeroTime),
         FmtArg.s ("GET" ++ " " ++ "/foo" ++ " " ++ "HTTP/1.1"),
         FmtArg.d (runHandler []).status, FmtArg.d ((runHandler []).length : Int),
         FmtArg.f "0.000015"] ∧
    serveHTTP ⟨Writer.stdout, 2, false, false⟩ ⟨"1.2.3.4:56", "GET", "/foo", "HTTP/1.1"⟩
        [] 10 25 (fun _ => "0.000015") =
      serveHTTP ⟨Writer.stdout, 2, false, false⟩ ⟨"1.2.3.4:56", "GET", "/foo", "HTTP/1.1"⟩
        [] 1000 9000 (fun _ => "0.000015") :=
  c6_zero_timestamp ⟨Writer.stdout, 2, false, false⟩
    ⟨"1.2.3.4:56", "GET", "/foo", "HTTP/1.1"⟩ [] (fun _ => "0.000015")
    10 25 1000 9000 rfl

/-- C7: Configure never raises an error for unrecognized enum values: an
output other than "file" and "stdout" falls back to the stderr sink, and
a level other than "debug" and "error" falls back to the info
threshold. -/
theorem c7_unrecognized_fallback (stA stB : LoggerState) (ca cb : LogConfig)
    (okA okB : Bool)
    (hOut1 : ca.Output ≠ "file") (hOut2 : ca.Output ≠ "stdout")
    (hLvl1 : cb.Level ≠ "debug") (hLvl2 : cb.Level ≠ "error") :
    (Configure stA ca okA).writer = Writer.stderr ∧
    (Configure stB cb okB).level = infoLevel := by
  constructor
  · simp [Configure, hOut1, hOut2]
  · simp [Configure, hLvl1, hLvl2]

/-- Witness for c7_unrecognized_fallback on the unrecognized values
"both" and "verbose". -/
theorem c7_unrecognized_fallback_witness :
    (Configure ⟨Writer.stdout, 2, false, false⟩
      ⟨"both", "info", "bivalve.log", false, false⟩ true).writer = Writer.stderr ∧
    (Configure ⟨Writer.stdout, 2, false, false⟩
      ⟨"stdout", "verbose", "bivalve.log", false, false⟩ true).level = infoLevel :=
  c7_unrecognized_fallback ⟨Writer.stdout, 2, false, false⟩
    ⟨Writer.stdout, 2, false, false⟩
    ⟨"both", "info", "bivalve.log", false, false⟩
    ⟨"stdout", "verbose", "bivalve.log", false, false⟩
    true true (by decide) (by decide) (by decide) (by decide)

/-- C8 counterexample: after Configure with DisplayMinimal = true, the
message "z" followed by a newline is emitted as exactly that text — the
Go log layer appends no second newline — so the emitted output is not the
message text followed by a trailing newline. (The header is indeed
absent.) -/
theorem c8_counterexample :
    writtenLine
        (Configure ⟨Writer.stderr, 2, false, false⟩
          ⟨"stdout", "info", "bivalve.log", true, false⟩ true)
        "2026/01/01 00:00:00 bivalve.go:1: "
        (Info
          (Configure ⟨Writer.stderr, 2, false, false⟩
            ⟨"stdout", "info", "bivalve.log", true, false⟩ true)
          ("z" ++ newline))
      = some ("z" ++ newline) ∧
    "z" ++ newline ≠ ("z" ++ newline) ++ newline := by
  refine ⟨by decide, by decide⟩

/-- C8 amended: after Configure with DisplayMinimal = true, every emitted
line carries no date/time/file:line header: the bytes written are exactly
the emitted message text, with a trailing newline appended only when the
message does not already end with one. -/
theorem c8_minimal_output (st0 : LoggerState) (conf : LogConfig) (ok : Bool)
    (hdr msg : String) (hmin : conf.DisplayMinimal = true) :
    writtenLine (Configure st0 conf ok) hdr (some msg) =
      some (msg ++ (if endsInNewline msg then "" else newline)) := by
  simp [writtenLine, logOutput, Configure, hmin]

/-- Witness for c8_minimal_output on a header-less "z". -/
theorem c8_minimal_output_witness :
    writtenLine
        (Configure ⟨Writer.stderr, 2, false, false⟩
          ⟨"stdout", "info", "bivalve.log", true, false⟩ true)
        "2026/01/01 00:00:00 bivalve.go:1: " (some "z")
      = some ("z" ++ (if endsInNewline "z" then "" else newline)) :=
  c8_minimal_output ⟨Writer.stderr, 2, false, false⟩
    ⟨"stdout", "info", "bivalve.log", true, false⟩ true
    "2026/01/01 00:00:00 bivalve.go:1: " "z" (by decide)

/-- C9: Configure is idempotent under identical input: a second Configure
with the same configuration (and the same open outcome) leaves the state
unchanged, and every subsequent emission — plain, formatted, colored,
sink-written or access-log — behaves identically. -/
theorem c9_configure_idempotent (st : LoggerState) (conf : LogConfig) (ok : Bool)
    (s hdr : String) (args : List FmtArg) (r : Request) (tr : List WEvent)
    (t1 t2 : Nat) (rs : Nat → String) :
    Configure (Configure st conf ok) conf ok = Configure st conf ok ∧
    Info (Configure (Configure st conf ok) conf ok) s
      = Info (Configure st conf ok) s ∧
    Infof (Configure (Configure st conf ok) conf ok) s args
      = Infof (Configure st conf ok) s args ∧
    Debug (Configure (Configure st conf ok) conf ok) s
      = Debug (Configure st conf ok) s ∧
    Debugf (Configure (Configure st conf ok) conf ok) s args
      = Debugf (Configure st conf ok) s args ∧
    Error (Configure (Configure st conf ok) conf ok) s
      = Error (Configure st conf ok) s ∧
    Errorf (Configure (Configure st conf ok) conf ok) s args
      = Errorf (Configure st conf ok) s args ∧
    writtenLine (Configure (Configure st conf ok) conf ok) hdr
        (Info (Configure (Configure st conf ok) conf ok) s)
      = writtenLine (Configure st conf ok) hdr (Info (Configure st conf ok) s) ∧
    serveHTTP (Configure (Configure st conf ok) conf ok) r tr t1 t2 rs
      = serveHTTP (Configure st conf ok) r tr t1 t2 rs :=
  ⟨rfl, rfl, rfl, rfl, rfl, rfl, rfl, rfl, rfl⟩

/-- A trace consisting only of zero-length Write calls adds nothing to
the interceptor's length, from any starting state. -/
theorem length_zero_writes (tr : List WEvent) (st : StatusWriter)
    (hz : ∀ e ∈ tr, e = WEvent.write 0) :
    (List.foldl stepSW st tr).length = st.length := by
  induction tr generalizing st with
  | nil => rfl
  | cons e rest ih =>
    have he : e = WEvent.write 0 := hz e (List.mem_cons_self _ _)
    subst he
    have hstep : (stepSW st (WEvent.write 0)).length = st.length := by
      simp only [stepSW, Nat.add_zero]
      split <;> rfl
    rw [List.foldl_cons, ih _ (fun e he2 => hz e (List.mem_cons_of_mem _ he2)), hstep]

/-- C10 counterexample: a handler that calls Write once with a
zero-length slice writes zero body bytes and never invokes the
status-set operation, yet the interceptor's status is promoted to 200 —
not 0 — and the access-log record reports status 200 with byte count
0. -/
theorem c10_counterexample :
    isWriteHeader (WEvent.write 0) = false ∧
    (runHandler [WEvent.write 0]).length = 0 ∧
    (runHandler [WEvent.write 0]).status = 200 ∧
    (200 : Int) ≠ 0 ∧
    (mkRecord ⟨"1.2.3.4:56", "GET", "/foo", "HTTP/1.1"⟩ [WEvent.write 0]).status = 200 := by
  refine ⟨by decide, by decide, by decide, by decide, by decide⟩

/-- C10 amended: when the wrapped handler invokes neither Write (not
even with a zero-length slice) nor WriteHeader, the interceptor's status
remains 0 (not 200) and the access-log line emitted at the info
threshold reports status 0 and byte count 0; a handler that performs
only zero-length Write calls still writes zero body bytes, but its
status is already promoted to 200. -/
theorem c10_untouched_interceptor (w : Writer) (tOut dm : Bool) (r : Request)
    (t1 t2 : Nat) (rs : Nat → String) (tr : List WEvent)
    (hzero : ∀ e ∈ tr, e = WEvent.write 0) (hne : tr ≠ []) :
    ((runHandler []).status = 0 ∧ (runHandler []).length = 0 ∧
     (mkRecord r []).status = 0 ∧ (mkRecord r []).responseBytes = 0 ∧
     serveHTTP ⟨w, infoLevel, tOut, dm⟩ r [] t1 t2 rs =
       some (sprintf ApacheFormatPattern
         [FmtArg.s r.RemoteAddr, FmtArg.s (goFormat zeroTime),
          FmtArg.s (r.Method ++ " " ++ r.RequestURI ++ " " ++ r.Proto),
          FmtArg.d 0, FmtArg.d 0, FmtArg.f (rs (t2 - t1))])) ∧
    ((runHandler tr).status = 200 ∧ (runHandler tr).length = 0) := by
  refine ⟨⟨rfl, rfl, rfl, rfl, rfl⟩, ?_, length_zero_writes tr initSW hzero⟩
  match tr, hne with
  | e :: rest, _ =>
    have he : e = WEvent.write 0 := hzero e (List.mem_cons_self _ _)
    subst he
    have hno : ∀ e2 ∈ rest, isWriteHeader e2 = false := by
      intro e2 he2
      rw [hzero e2 (List.mem_cons_of_mem _ he2)]
      rfl
    have hstep : (stepSW initSW (WEvent.write 0)).status = 200 := by decide
    unfold runHandler
    rw [List.foldl_cons]
    rw [status_preserved rest _ hno (by rw [hstep]; decide), hstep]

/-- Witness for c10_untouched_interceptor on a single zero-length
Write. -/
theorem c10_untouched_interceptor_witness :
    ((runHandler []).status = 0 ∧ (runHandler []).length = 0 ∧
     (mkRecord ⟨"1.2.3.4:56", "GET", "/foo", "HTTP/1.1"⟩ []).status = 0 ∧
     (mkRecord ⟨"1.2.3.4:56", "GET", "/foo", "HTTP/1.1"⟩ []).responseBytes = 0 ∧
     serveHTTP ⟨Writer.stdout, infoLevel, false, false⟩
         ⟨"1.2.3.4:56", "GET", "/foo", "HTTP/1.1"⟩ [] 10 25 (fun _ => "0.000015") =
       some (sprintf ApacheFormatPattern
         [FmtArg.s "1.2.3.4:56", FmtArg.s (goFormat zeroTime),
          FmtArg.s ("GET" ++ " " ++ "/foo" ++ " " ++ "HTTP/1.1"),
          FmtArg.d 0, FmtArg.d 0, FmtArg.f "0.000015"])) ∧
    ((runHandler [WEvent.write 0]).status = 200 ∧
     (runHandler [WEvent.write 0]).length = 0) :=
  c10_untouched_interceptor Writer.stdout false false
    ⟨"1.2.3.4:56", "GET", "/foo", "HTTP/1.1"⟩ 10 25 (fun _ => "0.000015")
    [WEvent.write 0] (by decide) (by decide)

end Bivalve
